import Mathlib

/-!
Verification of the session / authorization / credential core of the
Obstacle-Course-Electron repository against its natural-language specification.

The primary implementation lives in src/src/electron/utils.ts (namespace
Main below); an earlier near-duplicate revision of the same core lives in
src/unnamed/part_004 (namespace V4 below).  The application bootstrap that
drives the session lifecycle is src/src/electron/main.ts (the revision that
wires the session IPC handlers), modeled at the end of namespace Main.

The SQLite database is modeled as lists of rows.  A SELECT with LIMIT 1 is
List.find?, an UPDATE with a WHERE clause maps the update function over the
rows matching the predicate and reports the number of matching rows as the
changes count, DELETE FROM sessions empties the session list, and ORDER BY
is a merge sort.  bcrypt hashing and verification are external collaborators
and enter as explicit function arguments.  Thrown JS errors are Except
values; each Err constructor corresponds to one distinct thrown message.
-/

namespace ObstacleCourse

/-- Role values allowed by the users.role CHECK constraint. -/
inductive Role
  | OWNER
  | MANAGER
  | OPERATOR
deriving DecidableEq, Repr

/-- Errors thrown by the core.  Each constructor stands for one distinct
message thrown in the source; sqlCheckConstraint and sqlNoSuchFunction stand
for errors raised by the SQLite engine itself rather than by the JS code. -/
inductive Err
  | userNotFound
  | invalidPassword
  | permissionDenied
  | noActiveSession
  | allFieldsRequired
  | phoneNotTenDigits
  | emergencyNotTenDigits
  | secondaryPhoneNotTenDigits
  | invalidEmail
  | invalidGender
  | weakPassword
  | cannotDeleteOwnAccount
  | cannotModifyOwnRole
  | userIdRequired
  | cannotPromote
  | cannotDemote
  | userCannotBeDeleted
  | passwordsRequired
  | passwordRequired
  | oldPasswordIncorrect
  | passwordUpdateFailed
  | participantIdRequired
  | participantNotFound
  | missingCustomerFields
  | sqlCheckConstraint
  | sqlNoSuchFunction (fn : String)
deriving DecidableEq, Repr

/-- ASCII uppercase letter, as matched by the JS regex [A-Z]. -/
def isUpperChar (c : Char) : Bool := 'A' ≤ c && c ≤ 'Z'

/-- ASCII lowercase letter, as matched by the JS regex [a-z]. -/
def isLowerChar (c : Char) : Bool := 'a' ≤ c && c ≤ 'z'

/-- Decimal digit, as matched by the JS regexes [0-9] and \d. -/
def isDigitChar (c : Char) : Bool := '0' ≤ c && c ≤ '9'

/-- Member of the fixed punctuation set of the strength policy regex. -/
def isSymbolChar (c : Char) : Bool :=
  ['!', '@', '#', '$', '%', '^', '&', '*'].contains c

/-- Model of s.replace(/\D/g, "") from the source: keep only digits. -/
def stripNonDigits (s : String) : String :=
  String.mk (s.toList.filter isDigitChar)

/-- Model of the JS test /^\d{10}$/: exactly ten digits. -/
def isTenDigits (s : String) : Bool :=
  s.length == 10 && s.toList.all isDigitChar

/-- Character class [^\s@] of the email regex: no whitespace, no at-sign. -/
def isAddrChar (c : Char) : Bool := !c.isWhitespace && c != '@'

/-- True when the list has an element equal to the dot character somewhere
strictly inside (neither first nor last position); used to model the
domain-part shape [^\s@]+\.[^\s@]+ of the email regex. -/
def hasInnerDot (l : List Char) : Bool :=
  match l with
  | [] => false
  | _ :: t => t.dropLast.contains '.'

/-- Model of the email regex test from the source. -/
def isValidEmail (e : String) : Bool :=
  match e.splitOn "@" with
  | [localPart, domainPart] =>
    localPart != "" && localPart.toList.all isAddrChar &&
    domainPart != "" && domainPart.toList.all isAddrChar &&
    hasInnerDot domainPart.toList
  | _ => false

/-- The strength policy from isStrongPassword in utils.ts and part_004:
length at least 8, an uppercase letter, a lowercase letter, a digit and a
symbol from the fixed punctuation set. -/
def isStrongPassword (p : String) : Bool :=
  p.length ≥ 8 && p.toList.any isUpperChar && p.toList.any isLowerChar &&
    p.toList.any isDigitChar && p.toList.any isSymbolChar

/-- Gender values allowed by the CHECK (gender IN ('M', 'F', 'O')) column
constraint of the users and customers tables in utils.ts. -/
def genderOk (g : String) : Bool := ["M", "F", "O"].contains g

namespace Main

/-- A row of the sessions table of utils.ts: user_id and role. -/
structure Session where
  userId : Nat
  role : Role
deriving DecidableEq, Repr

/-- A row of the users table of utils.ts. -/
structure UserRow where
  id : Nat
  name : String
  email : String
  phone : String
  emergency_contact : String
  address : String
  date_of_birth : String
  gender : String
  blood_group : String
  role : Role
  password_hash : String
  is_deleted : Bool
deriving DecidableEq, Repr

/-- A row of the customers table of utils.ts. -/
structure CustomerRow where
  id : Nat
  name : String
  email : String
  phone : String
  emergency_contact : String
  address : String
  date_of_birth : String
  gender : String
  blood_group : String
  is_deleted : Bool
deriving DecidableEq, Repr

/-- The modeled database state for utils.ts: the users, sessions and
customers tables (the scores table is read-only in this core). -/
structure DB where
  users : List UserRow
  sessions : List Session
  customers : List CustomerRow
deriving DecidableEq, Repr

/-- eraseSession from utils.ts: DELETE FROM sessions. -/
def eraseSession (db : DB) : DB := { db with sessions := [] }

/-- readSession from utils.ts: SELECT user_id, role FROM sessions LIMIT 1. -/
def readSession (db : DB) : Option Session := db.sessions.head?

/-- createSession from utils.ts: erase any prior session, INSERT the new
row, then read it back. -/
def createSession (userId : Nat) (role : Role) (db : DB) : Option Session × DB :=
  let db1 := eraseSession db
  let db2 := { db1 with sessions := db1.sessions ++ [{ userId := userId, role := role }] }
  (readSession db2, db2)

/-- loginUser from utils.ts.  The verify argument models
bcrypt.compareSync.  SELECT * FROM users WHERE (name = ? OR email = ?) AND
is_deleted = 0 is the first matching row of the users list. -/
def loginUser (verify : String → String → Bool) (text password : String)
    (db : DB) : Except Err (Option Session × DB) :=
  match db.users.find? (fun u => (u.name == text || u.email == text) && !u.is_deleted) with
  | none => .error .userNotFound
  | some u =>
    if !verify password u.password_hash then .error .invalidPassword
    else .ok (createSession u.id u.role db)

/-- An UPDATE statement on the users table: rows matching p are rewritten
by f, the changes count is the number of matching rows.  The engine
enforces the CHECK (gender IN ('M', 'F', 'O')) column constraint on every
written row, so a write that would store an invalid gender fails with a
constraint error and leaves the table untouched. -/
def sqlUpdateUsers (p : UserRow → Bool) (f : UserRow → UserRow) (db : DB) :
    Except Err (Nat × DB) :=
  if db.users.any (fun u => p u && !genderOk (f u).gender) then
    .error .sqlCheckConstraint
  else
    .ok (db.users.countP p,
      { db with users := db.users.map fun u => if p u then f u else u })

/-- An UPDATE statement on the customers table, with the same gender CHECK
constraint as the users table. -/
def sqlUpdateCustomers (p : CustomerRow → Bool) (f : CustomerRow → CustomerRow)
    (db : DB) : Except Err (Nat × DB) :=
  if db.customers.any (fun u => p u && !genderOk (f u).gender) then
    .error .sqlCheckConstraint
  else
    .ok (db.customers.countP p,
      { db with customers := db.customers.map fun u => if p u then f u else u })

/-- Input record of createUser in utils.ts (all identity fields plus the
plaintext password). -/
structure UserInput where
  name : String
  email : String
  phone : String
  emergency_contact : String
  address : String
  date_of_birth : String
  gender : String
  blood_group : String
  password : String
deriving DecidableEq, Repr

/-- AUTOINCREMENT id for a users INSERT: one more than the largest id. -/
def nextUserId (db : DB) : Nat :=
  (db.users.map UserRow.id).foldr max 0 + 1

/-- AUTOINCREMENT id for a customers INSERT. -/
def nextCustomerId (db : DB) : Nat :=
  (db.customers.map CustomerRow.id).foldr max 0 + 1

/-- createUser from utils.ts.  Requires a MANAGER or OWNER session, all
fields non-empty, ten-digit phone numbers after stripping, a well-shaped
email and a strong password; the INSERT stores the raw phone values, the
hashed password, and the column defaults role OPERATOR and is_deleted 0.
The engine enforces the gender CHECK constraint on the insert. -/
def createUser (hashOf : String → String) (input : UserInput) (db : DB) :
    Except Err (Nat × DB) :=
  match readSession db with
  | none => .error .permissionDenied
  | some s =>
    if s.role != Role.MANAGER && s.role != Role.OWNER then .error .permissionDenied
    else if input.name == "" || input.email == "" || input.phone == "" ||
        input.emergency_contact == "" || input.address == "" ||
        input.date_of_birth == "" || input.gender == "" ||
        input.blood_group == "" || input.password == "" then
      .error .allFieldsRequired
    else if !isTenDigits (stripNonDigits input.phone) then .error .phoneNotTenDigits
    else if !isTenDigits (stripNonDigits input.emergency_contact) then
      .error .emergencyNotTenDigits
    else if !isValidEmail input.email then .error .invalidEmail
    else if !isStrongPassword input.password then .error .weakPassword
    else if !genderOk input.gender then .error .sqlCheckConstraint
    else
      let newId := nextUserId db
      let row : UserRow :=
        { id := newId, name := input.name, email := input.email,
          phone := input.phone, emergency_contact := input.emergency_contact,
          address := input.address, date_of_birth := input.date_of_birth,
          gender := input.gender, blood_group := input.blood_group,
          role := Role.OPERATOR, password_hash := hashOf input.password,
          is_deleted := false }
      .ok (newId, { db with users := db.users ++ [row] })

/-- The column projection of the getAllUsers SELECT in utils.ts (it lists
every column except password_hash and is_deleted and the reset fields). -/
structure UserListing where
  id : Nat
  name : String
  email : String
  phone : String
  emergency_contact : String
  address : String
  date_of_birth : String
  gender : String
  blood_group : String
  role : Role
deriving DecidableEq, Repr

/-- Projection of a users row to the getAllUsers column list. -/
def toListing (u : UserRow) : UserListing :=
  { id := u.id, name := u.name, email := u.email, phone := u.phone,
    emergency_contact := u.emergency_contact, address := u.address,
    date_of_birth := u.date_of_birth, gender := u.gender,
    blood_group := u.blood_group, role := u.role }

/-- getAllUsers from utils.ts: requires a session, then SELECT the listing
columns FROM users WHERE is_deleted = 0 AND role != OWNER ORDER BY id. -/
def getAllUsers (db : DB) : Except Err (List UserListing) :=
  match readSession db with
  | none => .error .noActiveSession
  | some _ =>
    .ok ((((db.users.filter fun u => !u.is_deleted && u.role != Role.OWNER).mergeSort
      fun a b => a.id ≤ b.id).map toListing))

/-- promoteUserToManager from utils.ts: requireOwnerSession, then a falsy
userId is rejected, then UPDATE users SET role = MANAGER WHERE id = ? AND
role = OPERATOR; zero changes throw. -/
def promoteUserToManager (userId : Nat) (db : DB) : Except Err DB :=
  match readSession db with
  | none => .error .permissionDenied
  | some s =>
    if s.role != Role.OWNER then .error .permissionDenied
    else if userId == 0 then .error .userIdRequired
    else
      match sqlUpdateUsers (fun u => u.id == userId && u.role == Role.OPERATOR)
          (fun u => { u with role := Role.MANAGER }) db with
      | .error e => .error e
      | .ok (changes, db1) =>
        if changes == 0 then .error .cannotPromote else .ok db1

/-- demoteUserToOperator from utils.ts: requireOwnerSession, then a falsy
userId is rejected, then UPDATE users SET role = OPERATOR WHERE id = ? AND
role = MANAGER; zero changes throw. -/
def demoteUserToOperator (userId : Nat) (db : DB) : Except Err DB :=
  match readSession db with
  | none => .error .permissionDenied
  | some s =>
    if s.role != Role.OWNER then .error .permissionDenied
    else if userId == 0 then .error .userIdRequired
    else
      match sqlUpdateUsers (fun u => u.id == userId && u.role == Role.MANAGER)
          (fun u => { u with role := Role.OPERATOR }) db with
      | .error e => .error e
      | .ok (changes, db1) =>
        if changes == 0 then .error .cannotDemote else .ok db1

/-- updatePassword from utils.ts.  verify models bcrypt.compareSync and
hashOf models bcrypt.hashSync.  The session user row is fetched with
SELECT password_hash FROM users WHERE id = ? AND is_deleted = 0, the old
password is verified against it, and on success UPDATE users SET
password_hash = ? WHERE id = ? AND is_deleted = 0 runs. -/
def updatePassword (verify : String → String → Bool) (hashOf : String → String)
    (oldPassword newPassword : String) (db : DB) : Except Err DB :=
  match readSession db with
  | none => .error .noActiveSession
  | some s =>
    if oldPassword == "" || newPassword == "" then .error .passwordsRequired
    else if !isStrongPassword newPassword then .error .weakPassword
    else
      match db.users.find? (fun u => u.id == s.userId && !u.is_deleted) with
      | none => .error .userNotFound
      | some u =>
        if !verify oldPassword u.password_hash then .error .oldPasswordIncorrect
        else
          match sqlUpdateUsers (fun r => r.id == s.userId && !r.is_deleted)
              (fun r => { r with password_hash := hashOf newPassword }) db with
          | .error e => .error e
          | .ok (changes, db1) =>
            if changes == 0 then .error .passwordUpdateFailed else .ok db1

/-- The optional field set accepted by updateUserProfile and
updateCustomerProfile in utils.ts (EditableProfileFields); a field left
out of the JS object is none. -/
structure ProfileUpdates where
  name : Option String := none
  email : Option String := none
  phone : Option String := none
  emergency_contact : Option String := none
  address : Option String := none
  date_of_birth : Option String := none
  gender : Option String := none
  blood_group : Option String := none
deriving DecidableEq, Repr

/-- Phone step of normalizeUpdates: the JS truthiness guard skips an
absent or empty value; a truthy value is stripped to digits and must then
be exactly ten digits. -/
def normalizePhoneField (u : ProfileUpdates) : Except Err ProfileUpdates :=
  match u.phone with
  | none => .ok u
  | some p =>
    if p == "" then .ok u
    else
      let p1 := stripNonDigits p
      if isTenDigits p1 then .ok { u with phone := some p1 }
      else .error .phoneNotTenDigits

/-- Emergency-contact step of normalizeUpdates, same shape as the phone
step. -/
def normalizeEmergencyField (u : ProfileUpdates) : Except Err ProfileUpdates :=
  match u.emergency_contact with
  | none => .ok u
  | some p =>
    if p == "" then .ok u
    else
      let p1 := stripNonDigits p
      if isTenDigits p1 then .ok { u with emergency_contact := some p1 }
      else .error .emergencyNotTenDigits

/-- Email step of normalizeUpdates: a truthy value must match the email
regex; the value is not rewritten. -/
def checkEmailField (u : ProfileUpdates) : Except Err ProfileUpdates :=
  match u.email with
  | none => .ok u
  | some e =>
    if e == "" then .ok u
    else if isValidEmail e then .ok u
    else .error .invalidEmail

/-- Gender step of normalizeUpdates: a truthy value must be M, F or O. -/
def checkGenderField (u : ProfileUpdates) : Except Err ProfileUpdates :=
  match u.gender with
  | none => .ok u
  | some g =>
    if g == "" then .ok u
    else if ["M", "F", "O"].contains g then .ok u
    else .error .invalidGender

/-- normalizeUpdates from utils.ts: the four field checks in source
order. -/
def normalizeUpdates (u : ProfileUpdates) : Except Err ProfileUpdates :=
  (normalizePhoneField u).bind fun u1 =>
    (normalizeEmergencyField u1).bind fun u2 =>
      (checkEmailField u2).bind fun u3 => checkGenderField u3

/-- buildSetClause from utils.ts keeps exactly the entries whose value is
not undefined; this function lists those column/value pairs.  The SET
clause is null exactly when this list is empty. -/
def presentFields (u : ProfileUpdates) : List (String × String) :=
  ([("name", u.name), ("email", u.email), ("phone", u.phone),
    ("emergency_contact", u.emergency_contact), ("address", u.address),
    ("date_of_birth", u.date_of_birth), ("gender", u.gender),
    ("blood_group", u.blood_group)]).filterMap fun kv => kv.2.map fun s => (kv.1, s)

/-- Effect of the generated SET clause on a users row: every present field
overwrites the column, absent fields are untouched. -/
def applyProfileUpdates (n : ProfileUpdates) (r : UserRow) : UserRow :=
  { r with
    name := n.name.getD r.name
    email := n.email.getD r.email
    phone := n.phone.getD r.phone
    emergency_contact := n.emergency_contact.getD r.emergency_contact
    address := n.address.getD r.address
    date_of_birth := n.date_of_birth.getD r.date_of_birth
    gender := n.gender.getD r.gender
    blood_group := n.blood_group.getD r.blood_group }

/-- Effect of the generated SET clause on a customers row. -/
def applyCustomerUpdates (n : ProfileUpdates) (r : CustomerRow) : CustomerRow :=
  { r with
    name := n.name.getD r.name
    email := n.email.getD r.email
    phone := n.phone.getD r.phone
    emergency_contact := n.emergency_contact.getD r.emergency_contact
    address := n.address.getD r.address
    date_of_birth := n.date_of_birth.getD r.date_of_birth
    gender := n.gender.getD r.gender
    blood_group := n.blood_group.getD r.blood_group }

/-- updateUserProfile from utils.ts: requires a session, normalizes the
updates, returns 0 when the SET clause is empty, otherwise UPDATE users
SET ... WHERE id = session.userId AND is_deleted = 0. -/
def updateUserProfile (u : ProfileUpdates) (db : DB) : Except Err (Nat × DB) :=
  match readSession db with
  | none => .error .noActiveSession
  | some s =>
    (normalizeUpdates u).bind fun n =>
      if (presentFields n).isEmpty then .ok (0, db)
      else
        sqlUpdateUsers (fun r => r.id == s.userId && !r.is_deleted)
          (applyProfileUpdates n) db

/-- updateCustomerProfile from utils.ts: requires a session and a truthy
customerId, normalizes the updates, returns 0 when the SET clause is
empty, otherwise UPDATE customers SET ... WHERE id = ? AND is_deleted = 0. -/
def updateCustomerProfile (customerId : Nat) (u : ProfileUpdates) (db : DB) :
    Except Err (Nat × DB) :=
  match readSession db with
  | none => .error .permissionDenied
  | some _ =>
    if customerId == 0 then .error .participantIdRequired
    else
      (normalizeUpdates u).bind fun n =>
        if (presentFields n).isEmpty then .ok (0, db)
        else
          sqlUpdateCustomers (fun r => r.id == customerId && !r.is_deleted)
            (applyCustomerUpdates n) db

/-- deleteUser from utils.ts: a missing session is rejected, then the
self-protection check, then the role branch chooses the target-role filter
of the soft-delete UPDATE; zero changes throw. -/
def deleteUser (userId : Nat) (db : DB) : Except Err DB :=
  match readSession db with
  | none => .error .permissionDenied
  | some s =>
    if s.userId == userId then .error .cannotDeleteOwnAccount
    else
      match s.role with
      | Role.OWNER =>
        match sqlUpdateUsers
            (fun u => u.id == userId &&
              (u.role == Role.MANAGER || u.role == Role.OPERATOR))
            (fun u => { u with is_deleted := true }) db with
        | .error e => .error e
        | .ok (changes, db1) =>
          if changes == 0 then .error .userCannotBeDeleted else .ok db1
      | Role.MANAGER =>
        match sqlUpdateUsers (fun u => u.id == userId && u.role == Role.OPERATOR)
            (fun u => { u with is_deleted := true }) db with
        | .error e => .error e
        | .ok (changes, db1) =>
          if changes == 0 then .error .userCannotBeDeleted else .ok db1
      | Role.OPERATOR => .error .permissionDenied

/-- Input record of createCustomer in utils.ts. -/
structure CustomerInput where
  name : String
  email : String
  phone : String
  emergency_contact : String
  address : String
  date_of_birth : String
  gender : String
  blood_group : String
deriving DecidableEq, Repr

/-- createCustomer from utils.ts: requires a session, all fields
non-empty, ten-digit phone numbers after stripping and a well-shaped
email; the INSERT stores the raw phone values and the engine enforces the
gender CHECK constraint. -/
def createCustomer (input : CustomerInput) (db : DB) : Except Err (Nat × DB) :=
  match readSession db with
  | none => .error .noActiveSession
  | some _ =>
    if input.name == "" || input.email == "" || input.phone == "" ||
        input.emergency_contact == "" || input.address == "" ||
        input.date_of_birth == "" || input.gender == "" ||
        input.blood_group == "" then
      .error .missingCustomerFields
    else if !isTenDigits (stripNonDigits input.phone) then .error .phoneNotTenDigits
    else if !isTenDigits (stripNonDigits input.emergency_contact) then
      .error .emergencyNotTenDigits
    else if !isValidEmail input.email then .error .invalidEmail
    else if !genderOk input.gender then .error .sqlCheckConstraint
    else
      let newId := nextCustomerId db
      let row : CustomerRow :=
        { id := newId, name := input.name, email := input.email,
          phone := input.phone, emergency_contact := input.emergency_contact,
          address := input.address, date_of_birth := input.date_of_birth,
          gender := input.gender, blood_group := input.blood_group,
          is_deleted := false }
      .ok (newId, { db with customers := db.customers ++ [row] })

/-- deleteCustomer from utils.ts: requires a session, then UPDATE
customers SET is_deleted = 1 WHERE id = ? AND is_deleted = 0; zero changes
throw. -/
def deleteCustomer (id : Nat) (db : DB) : Except Err (Nat × DB) :=
  match readSession db with
  | none => .error .noActiveSession
  | some _ =>
    match sqlUpdateCustomers (fun r => r.id == id && !r.is_deleted)
        (fun r => { r with is_deleted := true }) db with
    | .error e => .error e
    | .ok (changes, db1) =>
      if changes == 0 then .error .participantNotFound else .ok (changes, db1)

/-- initDb from utils.ts, run on an existing database: every statement is
CREATE TABLE IF NOT EXISTS or CREATE INDEX IF NOT EXISTS, which leaves
existing rows unchanged, so on the modeled state it is the identity.  (The
development-only RESET_DB branch is outside the modeled production
behavior.) -/
def initDb (db : DB) : DB := db

/-- The app.whenReady startup path of src/src/electron/main.ts (the
revision wiring the session IPC handlers): it runs initDb() and then
eraseSession() before any handler can run. -/
def startupInit (db : DB) : DB := eraseSession (initDb db)

/-- The window-all-closed shutdown path of the same main.ts revision: it
runs eraseSession(). -/
def shutdownAllWindowsClosed (db : DB) : DB := eraseSession db

end Main

namespace V4

/-- A row of the sessions table of part_004: user_id, username and role. -/
structure Session where
  userId : Nat
  username : String
  role : Role
deriving DecidableEq, Repr

/-- A row of the users table of part_004. -/
structure UserRow where
  id : Nat
  username : String
  email : String
  phone : String
  role : Role
  password_hash : String
  is_deleted : Bool
deriving DecidableEq, Repr

/-- A row of the customers table of part_004.  The modified_at and
modified_by columns are TEXT columns holding JSON arrays (default []),
modeled as the parsed lists. -/
structure CustomerRow where
  id : Nat
  name : String
  address : String
  created_by : String
  modified_at : List String
  modified_by : List String
  is_deleted : Bool
  date_of_birth : String
  phone : String
  secondary_phone : String
  blood_group : String
deriving DecidableEq, Repr

/-- The modeled database state for part_004. -/
structure DB where
  users : List UserRow
  sessions : List Session
  customers : List CustomerRow
deriving DecidableEq, Repr

/-- eraseSession from part_004: DELETE FROM sessions. -/
def eraseSession (db : DB) : DB := { db with sessions := [] }

/-- readSession from part_004: SELECT user_id, username, role FROM
sessions LIMIT 1. -/
def readSession (db : DB) : Option Session := db.sessions.head?

/-- deleteUser from part_004: the role check (OWNER or MANAGER) comes
first, then the falsy-userId check, then the self check, and the
soft-delete UPDATE has no target-role filter and no zero-changes error. -/
def deleteUser (userId : Nat) (db : DB) : Except Err DB :=
  match readSession db with
  | none => .error .permissionDenied
  | some s =>
    if s.role != Role.OWNER && s.role != Role.MANAGER then .error .permissionDenied
    else if userId == 0 then .error .userIdRequired
    else if userId == s.userId then .error .cannotDeleteOwnAccount
    else
      .ok { db with users := db.users.map fun u =>
        if u.id == userId then { u with is_deleted := true } else u }

/-- promoteUserToManager from part_004: the role check (OWNER or MANAGER)
comes first, then the self check, then the falsy-userId check; the UPDATE
filters on role OPERATOR and a zero-changes result is not an error. -/
def promoteUserToManager (userId : Nat) (db : DB) : Except Err DB :=
  match readSession db with
  | none => .error .permissionDenied
  | some s =>
    if s.role != Role.OWNER && s.role != Role.MANAGER then .error .permissionDenied
    else if userId == s.userId then .error .cannotModifyOwnRole
    else if userId == 0 then .error .userIdRequired
    else
      .ok { db with users := db.users.map fun u =>
        if u.id == userId && u.role == Role.OPERATOR then
          { u with role := Role.MANAGER }
        else u }

/-- demoteUserToOperator from part_004, mirror image of the promotion. -/
def demoteUserToOperator (userId : Nat) (db : DB) : Except Err DB :=
  match readSession db with
  | none => .error .permissionDenied
  | some s =>
    if s.role != Role.OWNER && s.role != Role.MANAGER then .error .permissionDenied
    else if userId == s.userId then .error .cannotModifyOwnRole
    else if userId == 0 then .error .userIdRequired
    else
      .ok { db with users := db.users.map fun u =>
        if u.id == userId && u.role == Role.MANAGER then
          { u with role := Role.OPERATOR }
        else u }

/-- updatePassword from part_004: it takes only the new password (there
is no old-password argument; the separate verifyPassword function is the
only place the old password can be checked) and runs UPDATE users SET
password_hash = ? WHERE id = ? AND is_deleted = 0. -/
def updatePassword (hashOf : String → String) (newPassword : String) (db : DB) :
    Except Err DB :=
  match readSession db with
  | none => .error .noActiveSession
  | some s =>
    if newPassword == "" then .error .passwordRequired
    else if !isStrongPassword newPassword then .error .weakPassword
    else
      .ok { db with users := db.users.map fun u =>
        if u.id == s.userId && !u.is_deleted then
          { u with password_hash := hashOf newPassword }
        else u }

/-- The optional field set accepted by updateCustomer in part_004 (the
Customer object without its id). -/
structure CustomerUpdates where
  name : Option String := none
  address : Option String := none
  dateOfBirth : Option String := none
  phone : Option String := none
  secondaryPhone : Option String := none
  bloodGroup : Option String := none
deriving DecidableEq, Repr

/-- The Object.entries filter of updateCustomer in part_004: the entries
whose value is not undefined. -/
def presentEntries (u : CustomerUpdates) : List (String × String) :=
  ([("name", u.name), ("address", u.address), ("dateOfBirth", u.dateOfBirth),
    ("phone", u.phone), ("secondaryPhone", u.secondaryPhone),
    ("bloodGroup", u.bloodGroup)]).filterMap fun kv => kv.2.map fun s => (kv.1, s)

/-- updateCustomer from part_004.  Truthy phone fields are validated, an
empty entry list returns 0 without touching the row, and otherwise the
generated SET clause appends to the audit arrays with the SQL function
json_array_append.  SQLite provides no function of that name (it is a
MySQL function; the SQLite JSON1 way to append is json_insert with a
path ending in [#]), so db.prepare throws a no-such-function error for
every non-empty update and neither the columns nor the audit arrays are
ever written. -/
def updateCustomer (id : Nat) (updates : CustomerUpdates) (db : DB) :
    Except Err (Nat × DB) :=
  match readSession db with
  | none => .error .noActiveSession
  | some _ =>
    if (updates.phone.getD "") != "" &&
        !isTenDigits (stripNonDigits (updates.phone.getD "")) then
      .error .phoneNotTenDigits
    else if (updates.secondaryPhone.getD "") != "" &&
        !isTenDigits (stripNonDigits (updates.secondaryPhone.getD "")) then
      .error .secondaryPhoneNotTenDigits
    else if (presentEntries updates).isEmpty then .ok (0, db)
    else .error (.sqlNoSuchFunction "json_array_append")

end V4

namespace Main

/-- Schema invariant of the users table: the gender CHECK constraint holds
of every stored row. -/
def usersWF (db : DB) : Prop := ∀ u ∈ db.users, genderOk u.gender = true

/-- The session-table bound claimed by the spec: at most one row. -/
def atMostOneSession (db : DB) : Prop := db.sessions.length ≤ 1

/-- Every operation of the core keeps the sessions table at no more than
one row: login always leaves exactly one, erase leaves none, and every
other operation leaves the table untouched. -/
def PreservesSessionBound : Prop :=
  ∀ db : DB, atMostOneSession db →
    (∀ verify text pw r db1, loginUser verify text pw db = .ok (r, db1) →
      atMostOneSession db1) ∧
    atMostOneSession (eraseSession db) ∧
    (∀ h inp n db1, createUser h inp db = .ok (n, db1) → atMostOneSession db1) ∧
    (∀ t db1, deleteUser t db = .ok db1 → atMostOneSession db1) ∧
    (∀ t db1, promoteUserToManager t db = .ok db1 → atMostOneSession db1) ∧
    (∀ t db1, demoteUserToOperator t db = .ok db1 → atMostOneSession db1) ∧
    (∀ v h o nw db1, updatePassword v h o nw db = .ok db1 → atMostOneSession db1) ∧
    (∀ u n db1, updateUserProfile u db = .ok (n, db1) → atMostOneSession db1) ∧
    (∀ cid u n db1, updateCustomerProfile cid u db = .ok (n, db1) →
      atMostOneSession db1) ∧
    (∀ inp n db1, createCustomer inp db = .ok (n, db1) → atMostOneSession db1) ∧
    (∀ cid n db1, deleteCustomer cid db = .ok (n, db1) → atMostOneSession db1)

/-- No operation that touches the users table ever clears an is_deleted
flag: a soft-deleted row stays soft-deleted (positionally) under
promotion, demotion, deletion, password change and profile update. -/
def NoUserUndelete : Prop :=
  ∀ (db db1 : DB),
    ((∃ t, promoteUserToManager t db = .ok db1) ∨
     (∃ t, demoteUserToOperator t db = .ok db1) ∨
     (∃ t, deleteUser t db = .ok db1) ∨
     (∃ v h o nw, updatePassword v h o nw db = .ok db1) ∨
     (∃ u n, updateUserProfile u db = .ok (n, db1))) →
    ∀ i : Nat, (db.users[i]?).map UserRow.is_deleted = some true →
      (db1.users[i]?).map UserRow.is_deleted = some true

/-- Sample users row with fixed profile columns. -/
def sampleUser (id : Nat) (nm em hsh : String) (r : Role) : UserRow :=
  { id := id, name := nm, email := em, phone := "0123456789",
    emergency_contact := "0123456789", address := "HQ",
    date_of_birth := "1990-01-01", gender := "M", blood_group := "O+",
    role := r, password_hash := hsh, is_deleted := false }

/-- A toy bcrypt.compareSync: the digest of p is the string stored- ++ p. -/
def toyVerify (p h : String) : Bool := h == "stored-" ++ p

/-- A toy bcrypt.hashSync matching toyVerify. -/
def toyHash (p : String) : String := "stored-" ++ p

/-- State for C1: a seeded OWNER logged in as the only session. -/
def c1db : DB :=
  { users := [sampleUser 1 "root" "root@x.com" "stored-pw" Role.OWNER],
    sessions := [{ userId := 1, role := Role.OWNER }],
    customers := [] }

/-- State for the C2 witness: one MANAGER user, no session yet. -/
def c2db : DB :=
  { users := [sampleUser 1 "alice" "alice@x.com" "stored-pw" Role.MANAGER],
    sessions := [],
    customers := [] }

/-- Main-side state for the C3 witness: an OWNER session, with MANAGER and
OPERATOR rows to act on. -/
def c3wdb : DB :=
  { users := [sampleUser 1 "root" "root@x.com" "stored-pw" Role.OWNER,
              sampleUser 2 "mgr" "mgr@x.com" "stored-m" Role.MANAGER,
              sampleUser 3 "op" "op@x.com" "stored-o" Role.OPERATOR],
    sessions := [{ userId := 1, role := Role.OWNER }],
    customers := [] }

/-- Main-side state for the C3 witness with an OPERATOR session. -/
def c3opdb : DB :=
  { users := c3wdb.users,
    sessions := [{ userId := 3, role := Role.OPERATOR }],
    customers := [] }

/-- Main-side state for the C3 witness with a MANAGER session and an
OPERATOR row to delete. -/
def c3mdb : DB :=
  { users := [sampleUser 1 "root" "root@x.com" "stored-pw" Role.OWNER,
              sampleUser 2 "mgr" "mgr@x.com" "stored-m" Role.MANAGER,
              sampleUser 3 "op" "op@x.com" "stored-o" Role.OPERATOR],
    sessions := [{ userId := 2, role := Role.MANAGER }],
    customers := [] }

/-- The C3 MANAGER-witness state after the MANAGER deletes user 3. -/
def c3mdbAfter : DB :=
  { users := [sampleUser 1 "root" "root@x.com" "stored-pw" Role.OWNER,
              sampleUser 2 "mgr" "mgr@x.com" "stored-m" Role.MANAGER,
              { sampleUser 3 "op" "op@x.com" "stored-o" Role.OPERATOR with
                is_deleted := true }],
    sessions := [{ userId := 2, role := Role.MANAGER }],
    customers := [] }

/-- A well-formed createUser input for the C3 witness. -/
def c3winput : UserInput :=
  { name := "new", email := "new@x.com", phone := "0123456789",
    emergency_contact := "0123456789", address := "HQ",
    date_of_birth := "1990-01-01", gender := "M", blood_group := "O+",
    password := "Passw0rd!" }

/-- State for the C5 witness: an OPERATOR logged in, stored digest of the
old password under the toy bcrypt model. -/
def c5db : DB :=
  { users := [sampleUser 1 "alice" "alice@x.com" "stored-Oldpass1!" Role.OPERATOR],
    sessions := [{ userId := 1, role := Role.OPERATOR }],
    customers := [] }

/-- Result state of the C5 witness password change. -/
def c5dbAfter : DB :=
  { users := [sampleUser 1 "alice" "alice@x.com" "stored-Newpass1!" Role.OPERATOR],
    sessions := [{ userId := 1, role := Role.OPERATOR }],
    customers := [] }

/-- A sample customers row for the C6 witness. -/
def sampleCustomer : CustomerRow :=
  { id := 2, name := "Ann", email := "ann@x.com", phone := "0123456789",
    emergency_contact := "0123456789", address := "Addr",
    date_of_birth := "2000-01-01", gender := "F", blood_group := "A+",
    is_deleted := false }

/-- State for the C6 witness: an OWNER session and one customer. -/
def c6db : DB :=
  { users := [sampleUser 1 "root" "root@x.com" "stored-pw" Role.OWNER],
    sessions := [{ userId := 1, role := Role.OWNER }],
    customers := [sampleCustomer] }

/-- State for the C7 counterexample: uniqueness of email is not enforced
by the utils.ts schema, so two distinct non-deleted OPERATOR rows share
the email dup@x.com while an OWNER session is active. -/
def c7db : DB :=
  { users := [sampleUser 1 "root" "root@x.com" "stored-pw" Role.OWNER,
              sampleUser 2 "alice" "dup@x.com" "stored-pwA" Role.OPERATOR,
              sampleUser 3 "bob" "dup@x.com" "stored-pwB" Role.OPERATOR],
    sessions := [{ userId := 1, role := Role.OWNER }],
    customers := [] }

/-- The C7 counterexample state after the OWNER soft-deletes user 2. -/
def c7dbAfter : DB :=
  { users := [sampleUser 1 "root" "root@x.com" "stored-pw" Role.OWNER,
              { sampleUser 2 "alice" "dup@x.com" "stored-pwA" Role.OPERATOR with
                is_deleted := true },
              sampleUser 3 "bob" "dup@x.com" "stored-pwB" Role.OPERATOR],
    sessions := [{ userId := 1, role := Role.OWNER }],
    customers := [] }

/-- State for the C7 witness: an OWNER session and one OPERATOR row whose
name and email are unique. -/
def c7wdb : DB :=
  { users := [sampleUser 1 "root" "root@x.com" "stored-pw" Role.OWNER,
              sampleUser 2 "alice" "alice@x.com" "stored-pwA" Role.OPERATOR],
    sessions := [{ userId := 1, role := Role.OWNER }],
    customers := [] }

/-- The C7 witness state after the OWNER soft-deletes user 2. -/
def c7wdbAfter : DB :=
  { users := [sampleUser 1 "root" "root@x.com" "stored-pw" Role.OWNER,
              { sampleUser 2 "alice" "alice@x.com" "stored-pwA" Role.OPERATOR with
                is_deleted := true }],
    sessions := [{ userId := 1, role := Role.OWNER }],
    customers := [] }

/-- State for the C8 witness: an OWNER session and an OPERATOR row. -/
def c8db : DB :=
  { users := [sampleUser 1 "root" "root@x.com" "stored-pw" Role.OWNER,
              sampleUser 2 "op" "op@x.com" "stored-o" Role.OPERATOR],
    sessions := [{ userId := 1, role := Role.OWNER }],
    customers := [] }

/-- The C8 witness state after promoting user 2: the users table changed
but the sessions table did not. -/
def c8dbAfter : DB :=
  { users := [sampleUser 1 "root" "root@x.com" "stored-pw" Role.OWNER,
              { sampleUser 2 "op" "op@x.com" "stored-o" Role.OPERATOR with
                role := Role.MANAGER }],
    sessions := [{ userId := 1, role := Role.OWNER }],
    customers := [] }

/-- State for the C9 counterexample: a session row persisted in the store
at the moment the process dies. -/
def c9db : DB :=
  { users := [sampleUser 1 "root" "root@x.com" "stored-pw" Role.OWNER],
    sessions := [{ userId := 1, role := Role.OWNER }],
    customers := [] }

/-- State for C10: an OWNER session whose own row is present and not
deleted. -/
def c10db : DB :=
  { users := [sampleUser 1 "root" "root@x.com" "stored-pw" Role.OWNER],
    sessions := [{ userId := 1, role := Role.OWNER }],
    customers := [] }

end Main

namespace V4

/-- Sample part_004 users rows. -/
def v4owner : UserRow :=
  { id := 1, username := "root", email := "root@x.com", phone := "0123456789",
    role := Role.OWNER, password_hash := "h1", is_deleted := false }

/-- A part_004 MANAGER row. -/
def v4manager : UserRow :=
  { id := 2, username := "mgr", email := "mgr@x.com", phone := "0123456789",
    role := Role.MANAGER, password_hash := "h2", is_deleted := false }

/-- State for the C3 counterexample: a MANAGER session is active and the
OWNER row is the deletion target. -/
def c3db : DB :=
  { users := [v4owner, v4manager],
    sessions := [{ userId := 2, username := "mgr", role := Role.MANAGER }],
    customers := [] }

/-- The C3 counterexample state after the MANAGER deletes the OWNER. -/
def c3dbAfter : DB :=
  { users := [{ v4owner with is_deleted := true }, v4manager],
    sessions := [{ userId := 2, username := "mgr", role := Role.MANAGER }],
    customers := [] }

/-- A part_004 customers row with empty audit arrays. -/
def v4customer : CustomerRow :=
  { id := 1, name := "Ann", address := "Addr", created_by := "root",
    modified_at := [], modified_by := [], is_deleted := false,
    date_of_birth := "2000-01-01", phone := "0123456789",
    secondary_phone := "0123456789", blood_group := "A+" }

/-- State for C4 and the V4 part of the C6 witness: an OWNER session and
one customer. -/
def c4db : DB :=
  { users := [v4owner],
    sessions := [{ userId := 1, username := "root", role := Role.OWNER }],
    customers := [v4customer] }

end V4

namespace Main

/-- The ok result of a users UPDATE is the matching-row count and the
mapped table. -/
theorem sqlUpdateUsers_ok (p : UserRow → Bool) (f : UserRow → UserRow) (db : DB)
    (x : Nat × DB) (h : sqlUpdateUsers p f db = .ok x) :
    x = (db.users.countP p,
      { db with users := db.users.map fun u => if p u then f u else u }) := by
  unfold sqlUpdateUsers at h
  split at h
  · exact Except.noConfusion h
  · injection h with h2; exact h2.symm

/-- A users UPDATE whose written rows all satisfy the gender CHECK
constraint succeeds. -/
theorem sqlUpdateUsers_ok_of (p : UserRow → Bool) (f : UserRow → UserRow) (db : DB)
    (hchk : db.users.any (fun u => p u && !genderOk (f u).gender) = false) :
    sqlUpdateUsers p f db = .ok (db.users.countP p,
      { db with users := db.users.map fun u => if p u then f u else u }) := by
  unfold sqlUpdateUsers
  simp [hchk]

/-- The ok result of a customers UPDATE is the matching-row count and the
mapped table. -/
theorem sqlUpdateCustomers_ok (p : CustomerRow → Bool) (f : CustomerRow → CustomerRow)
    (db : DB) (x : Nat × DB) (h : sqlUpdateCustomers p f db = .ok x) :
    x = (db.customers.countP p,
      { db with customers := db.customers.map fun u => if p u then f u else u }) := by
  unfold sqlUpdateCustomers at h
  split at h
  · exact Except.noConfusion h
  · injection h with h2; exact h2.symm

/-- A successful promotion rewrites exactly the OPERATOR rows with the
target id and leaves the sessions and customers tables unchanged. -/
theorem promote_ok_shape (t : Nat) (db db1 : DB)
    (h : promoteUserToManager t db = .ok db1) :
    db1.users = db.users.map (fun u =>
      if u.id == t && u.role == Role.OPERATOR then { u with role := Role.MANAGER } else u) ∧
    db1.sessions = db.sessions ∧ db1.customers = db.customers := by
  unfold promoteUserToManager at h
  cases hr : readSession db with
  | none => simp only [hr] at h; exact Except.noConfusion h
  | some s =>
    simp only [hr] at h
    split at h
    · exact Except.noConfusion h
    · split at h
      · exact Except.noConfusion h
      · cases hq : sqlUpdateUsers (fun u => u.id == t && u.role == Role.OPERATOR)
            (fun u => { u with role := Role.MANAGER }) db with
        | error e => simp only [hq] at h; exact Except.noConfusion h
        | ok y =>
          obtain ⟨chg, dbx⟩ := y
          have hy := sqlUpdateUsers_ok _ _ _ _ hq
          simp only [hq] at h
          split at h
          · exact Except.noConfusion h
          · injection h with h2
            subst h2
            injection hy with hy1 hy2
            rw [hy2]
            exact ⟨rfl, rfl, rfl⟩

/-- A successful demotion rewrites exactly the MANAGER rows with the
target id and leaves the sessions and customers tables unchanged. -/
theorem demote_ok_shape (t : Nat) (db db1 : DB)
    (h : demoteUserToOperator t db = .ok db1) :
    db1.users = db.users.map (fun u =>
      if u.id == t && u.role == Role.MANAGER then { u with role := Role.OPERATOR } else u) ∧
    db1.sessions = db.sessions ∧ db1.customers = db.customers := by
  unfold demoteUserToOperator at h
  cases hr : readSession db with
  | none => simp only [hr] at h; exact Except.noConfusion h
  | some s =>
    simp only [hr] at h
    split at h
    · exact Except.noConfusion h
    · split at h
      · exact Except.noConfusion h
      · cases hq : sqlUpdateUsers (fun u => u.id == t && u.role == Role.MANAGER)
            (fun u => { u with role := Role.OPERATOR }) db with
        | error e => simp only [hq] at h; exact Except.noConfusion h
        | ok y =>
          obtain ⟨chg, dbx⟩ := y
          have hy := sqlUpdateUsers_ok _ _ _ _ hq
          simp only [hq] at h
          split at h
          · exact Except.noConfusion h
          · injection h with h2
            subst h2
            injection hy with hy1 hy2
            rw [hy2]
            exact ⟨rfl, rfl, rfl⟩

/-- A successful deletion marks is_deleted on the rows matched by a
role-dependent predicate; every matched row bears the target id, at least
one row matched, and the sessions and customers tables are unchanged. -/
theorem deleteUser_ok_shape (t : Nat) (db db1 : DB) (h : deleteUser t db = .ok db1) :
    ∃ p : UserRow → Bool,
      (∀ u, p u = true → u.id = t) ∧
      (∃ u ∈ db.users, p u = true) ∧
      db1.users = db.users.map (fun u => if p u then { u with is_deleted := true } else u) ∧
      db1.sessions = db.sessions ∧ db1.customers = db.customers := by
  unfold deleteUser at h
  cases hr : readSession db with
  | none => simp only [hr] at h; exact Except.noConfusion h
  | some s =>
    simp only [hr] at h
    split at h
    · exact Except.noConfusion h
    · cases hrol : s.role
      all_goals simp only [hrol] at h
      case OPERATOR => exact Except.noConfusion h
      case OWNER =>
        cases hq : sqlUpdateUsers
            (fun u => u.id == t && (u.role == Role.MANAGER || u.role == Role.OPERATOR))
            (fun u => { u with is_deleted := true }) db with
        | error e => simp only [hq] at h; exact Except.noConfusion h
        | ok y =>
          obtain ⟨chg, dbx⟩ := y
          have hy := sqlUpdateUsers_ok _ _ _ _ hq
          injection hy with hy1 hy2
          simp only [hq] at h
          split at h
          · exact Except.noConfusion h
          · injection h with h2
            subst h2
            refine ⟨_, ?_, ?_, by rw [hy2], by rw [hy2], by rw [hy2]⟩
            · intro u hu
              have := (Bool.and_eq_true _ _).mp hu
              exact eq_of_beq this.1
            · rename_i hchg
              have : chg ≠ 0 := by
                intro hc; exact hchg (by simp [hc])
              rw [hy1] at this
              have hpos : 0 < db.users.countP
                  (fun u => u.id == t && (u.role == Role.MANAGER || u.role == Role.OPERATOR)) :=
                Nat.pos_of_ne_zero this
              exact List.countP_pos_iff.mp hpos
      case MANAGER =>
        cases hq : sqlUpdateUsers (fun u => u.id == t && u.role == Role.OPERATOR)
            (fun u => { u with is_deleted := true }) db with
        | error e => simp only [hq] at h; exact Except.noConfusion h
        | ok y =>
          obtain ⟨chg, dbx⟩ := y
          have hy := sqlUpdateUsers_ok _ _ _ _ hq
          injection hy with hy1 hy2
          simp only [hq] at h
          split at h
          · exact Except.noConfusion h
          · injection h with h2
            subst h2
            refine ⟨_, ?_, ?_, by rw [hy2], by rw [hy2], by rw [hy2]⟩
            · intro u hu
              have := (Bool.and_eq_true _ _).mp hu
              exact eq_of_beq this.1
            · rename_i hchg
              have : chg ≠ 0 := by
                intro hc; exact hchg (by simp [hc])
              rw [hy1] at this
              have hpos : 0 < db.users.countP (fun u => u.id == t && u.role == Role.OPERATOR) :=
                Nat.pos_of_ne_zero this
              exact List.countP_pos_iff.mp hpos

/-- Under a MANAGER session a successful deletion found an OPERATOR row
with the target id, and only OPERATOR rows with that id are marked. -/
theorem deleteUser_manager_shape (t : Nat) (s : Session) (db db1 : DB)
    (hs : readSession db = some s) (hrol : s.role = Role.MANAGER)
    (h : deleteUser t db = .ok db1) :
    (∃ u ∈ db.users, u.id = t ∧ u.role = Role.OPERATOR) ∧
    db1.users = db.users.map (fun u =>
      if u.id == t && u.role == Role.OPERATOR then { u with is_deleted := true } else u) := by
  unfold deleteUser at h
  simp only [hs] at h
  split at h
  · exact Except.noConfusion h
  · simp only [hrol] at h
    cases hq : sqlUpdateUsers (fun u => u.id == t && u.role == Role.OPERATOR)
        (fun u => { u with is_deleted := true }) db with
    | error e => simp only [hq] at h; exact Except.noConfusion h
    | ok y =>
      obtain ⟨chg, dbx⟩ := y
      have hy := sqlUpdateUsers_ok _ _ _ _ hq
      injection hy with hy1 hy2
      simp only [hq] at h
      split at h
      · exact Except.noConfusion h
      · injection h with h2
        subst h2
        constructor
        · rename_i hchg
          have : chg ≠ 0 := by
            intro hc; exact hchg (by simp [hc])
          rw [hy1] at this
          have hpos : 0 < db.users.countP (fun u => u.id == t && u.role == Role.OPERATOR) :=
            Nat.pos_of_ne_zero this
          obtain ⟨u, hu, hp⟩ := List.countP_pos_iff.mp hpos
          have hand := (Bool.and_eq_true _ _).mp hp
          exact ⟨u, hu, eq_of_beq hand.1, eq_of_beq hand.2⟩
        · rw [hy2]

/-- A successful login found a non-deleted row matching the identifier,
verified the password against its stored hash, and replaced the sessions
table with the single session built from that row. -/
theorem loginUser_ok_shape (verify : String → String → Bool) (text pw : String)
    (db : DB) (r : Option Session) (db1 : DB)
    (h : loginUser verify text pw db = .ok (r, db1)) :
    ∃ u, db.users.find? (fun u => (u.name == text || u.email == text) && !u.is_deleted) = some u ∧
      verify pw u.password_hash = true ∧
      r = some { userId := u.id, role := u.role } ∧
      db1 = { db with sessions := [{ userId := u.id, role := u.role }] } := by
  unfold loginUser at h
  cases hf : db.users.find? (fun u => (u.name == text || u.email == text) && !u.is_deleted) with
  | none => simp only [hf] at h; exact Except.noConfusion h
  | some u =>
    simp only [hf] at h
    split at h
    · exact Except.noConfusion h
    · rename_i hv
      injection h with h2
      injection h2 with h3 h4
      refine ⟨u, rfl, ?_, h3.symm, h4.symm⟩
      cases hb : verify pw u.password_hash
      · exact absurd (by simp [hb]) hv
      · rfl

/-- A successful user creation appends one row and leaves the sessions
and customers tables unchanged. -/
theorem createUser_ok_frame (hashOf : String → String) (inp : UserInput) (n : Nat)
    (db db1 : DB) (h : createUser hashOf inp db = .ok (n, db1)) :
    db1.sessions = db.sessions ∧ db1.customers = db.customers ∧
    ∃ row, db1.users = db.users ++ [row] := by
  unfold createUser at h
  cases hr : readSession db with
  | none => simp only [hr] at h; exact Except.noConfusion h
  | some s =>
    simp only [hr] at h
    split at h
    · exact Except.noConfusion h
    split at h
    · exact Except.noConfusion h
    split at h
    · exact Except.noConfusion h
    split at h
    · exact Except.noConfusion h
    split at h
    · exact Except.noConfusion h
    split at h
    · exact Except.noConfusion h
    split at h
    · exact Except.noConfusion h
    injection h with h2
    injection h2 with h3 h4
    subst h4
    exact ⟨rfl, rfl, _, rfl⟩

/-- A successful password change verified the old password against the
session user row, required a strong new password, rewrote only the
password_hash column of the session user row and left the sessions and
customers tables unchanged. -/
theorem updatePassword_ok_shape (verify : String → String → Bool)
    (hashOf : String → String) (oldP newP : String) (db db1 : DB)
    (h : updatePassword verify hashOf oldP newP db = .ok db1) :
    ∃ s u, readSession db = some s ∧
      db.users.find? (fun r => r.id == s.userId && !r.is_deleted) = some u ∧
      verify oldP u.password_hash = true ∧ isStrongPassword newP = true ∧
      db1.users = db.users.map (fun r =>
        if r.id == s.userId && !r.is_deleted then
          { r with password_hash := hashOf newP } else r) ∧
      db1.sessions = db.sessions ∧ db1.customers = db.customers := by
  unfold updatePassword at h
  cases hr : readSession db with
  | none => simp only [hr] at h; exact Except.noConfusion h
  | some s =>
    simp only [hr] at h
    split at h
    · exact Except.noConfusion h
    split at h
    · exact Except.noConfusion h
    rename_i hstrongneg
    cases hf : db.users.find? (fun r => r.id == s.userId && !r.is_deleted) with
    | none => simp only [hf] at h; exact Except.noConfusion h
    | some u =>
      simp only [hf] at h
      split at h
      · exact Except.noConfusion h
      rename_i hverneg
      cases hq : sqlUpdateUsers (fun r => r.id == s.userId && !r.is_deleted)
          (fun r => { r with password_hash := hashOf newP }) db with
      | error e => simp only [hq] at h; exact Except.noConfusion h
      | ok y =>
        obtain ⟨chg, dbx⟩ := y
        have hy := sqlUpdateUsers_ok _ _ _ _ hq
        injection hy with hy1 hy2
        simp only [hq] at h
        split at h
        · exact Except.noConfusion h
        · injection h with h2
          subst h2
          refine ⟨s, u, rfl, hf, ?_, ?_, by rw [hy2], by rw [hy2], by rw [hy2]⟩
          · cases hb : verify oldP u.password_hash
            · exact absurd (by simp [hb]) hverneg
            · rfl
          · cases hb : isStrongPassword newP
            · exact absurd (by simp [hb]) hstrongneg
            · rfl

/-- A successful profile self-update only maps the users table through a
function that never touches the is_deleted flag, and leaves the sessions
and customers tables unchanged. -/
theorem updateUserProfile_ok_frame (u : ProfileUpdates) (n : Nat) (db db1 : DB)
    (h : updateUserProfile u db = .ok (n, db1)) :
    db1.sessions = db.sessions ∧ db1.customers = db.customers ∧
    ∃ g : UserRow → UserRow, (∀ r, (g r).is_deleted = r.is_deleted) ∧
      db1.users = db.users.map g := by
  unfold updateUserProfile at h
  cases hr : readSession db with
  | none => simp only [hr] at h; exact Except.noConfusion h
  | some s =>
    simp only [hr] at h
    cases hn : normalizeUpdates u with
    | error e => rw [hn] at h; exact Except.noConfusion h
    | ok n1 =>
      rw [hn] at h
      simp only [Except.bind] at h
      split at h
      · injection h with h2
        injection h2 with h3 h4
        subst h4
        exact ⟨rfl, rfl, id, fun r => rfl, (List.map_id _).symm⟩
      · have hy := sqlUpdateUsers_ok _ _ _ _ h
        injection hy with hy1 hy2
        subst hy2
        refine ⟨rfl, rfl, _, ?_, rfl⟩
        intro r
        by_cases hp : (r.id == s.userId && !r.is_deleted) = true
        · simp only [hp, if_true]; rfl
        · simp only [hp, if_false]
          simp [hp]

/-- A successful participant update leaves the users and sessions tables
unchanged. -/
theorem updateCustomerProfile_ok_frame (cid : Nat) (u : ProfileUpdates) (n : Nat)
    (db db1 : DB) (h : updateCustomerProfile cid u db = .ok (n, db1)) :
    db1.sessions = db.sessions ∧ db1.users = db.users := by
  unfold updateCustomerProfile at h
  cases hr : readSession db with
  | none => simp only [hr] at h; exact Except.noConfusion h
  | some s =>
    simp only [hr] at h
    split at h
    · exact Except.noConfusion h
    cases hn : normalizeUpdates u with
    | error e => rw [hn] at h; exact Except.noConfusion h
    | ok n1 =>
      rw [hn] at h
      simp only [Except.bind] at h
      split at h
      · injection h with h2
        injection h2 with h3 h4
        subst h4
        exact ⟨rfl, rfl⟩
      · have hy := sqlUpdateCustomers_ok _ _ _ _ h
        injection hy with hy1 hy2
        subst hy2
        exact ⟨rfl, rfl⟩

/-- A successful participant creation leaves the sessions and users
tables unchanged. -/
theorem createCustomer_ok_frame (inp : CustomerInput) (n : Nat) (db db1 : DB)
    (h : createCustomer inp db = .ok (n, db1)) :
    db1.sessions = db.sessions ∧ db1.users = db.users := by
  unfold createCustomer at h
  cases hr : readSession db with
  | none => simp only [hr] at h; exact Except.noConfusion h
  | some s =>
    simp only [hr] at h
    split at h
    · exact Except.noConfusion h
    split at h
    · exact Except.noConfusion h
    split at h
    · exact Except.noConfusion h
    split at h
    · exact Except.noConfusion h
    split at h
    · exact Except.noConfusion h
    injection h with h2
    injection h2 with h3 h4
    subst h4
    exact ⟨rfl, rfl⟩

/-- A successful participant deletion leaves the sessions and users
tables unchanged. -/
theorem deleteCustomer_ok_frame (cid : Nat) (n : Nat) (db db1 : DB)
    (h : deleteCustomer cid db = .ok (n, db1)) :
    db1.sessions = db.sessions ∧ db1.users = db.users := by
  unfold deleteCustomer at h
  cases hr : readSession db with
  | none => simp only [hr] at h; exact Except.noConfusion h
  | some s =>
    simp only [hr] at h
    cases hq : sqlUpdateCustomers (fun r => r.id == cid && !r.is_deleted)
        (fun r => { r with is_deleted := true }) db with
    | error e => simp only [hq] at h; exact Except.noConfusion h
    | ok y =>
      obtain ⟨chg, dbx⟩ := y
      have hy := sqlUpdateCustomers_ok _ _ _ _ hq
      injection hy with hy1 hy2
      simp only [hq] at h
      split at h
      · exact Except.noConfusion h
      · injection h with h2
        injection h2 with h3 h4
        subst h4
        rw [hy2]
        exact ⟨rfl, rfl⟩

end Main

namespace Main

theorem sessionBound_all : PreservesSessionBound := by
  intro db hdb
  refine ⟨?_, ?_, ?_, ?_, ?_, ?_, ?_, ?_, ?_, ?_, ?_⟩
  · intro v t p r db1 h
    obtain ⟨u, _, _, _, hdb1⟩ := loginUser_ok_shape v t p db r db1 h
    subst hdb1
    simp [atMostOneSession]
  · simp [atMostOneSession, eraseSession]
  · intro hsh inp n db1 h
    have hfr := createUser_ok_frame hsh inp n db db1 h
    unfold atMostOneSession
    rw [hfr.1]
    exact hdb
  · intro t db1 h
    obtain ⟨p, _, _, _, hses, _⟩ := deleteUser_ok_shape t db db1 h
    unfold atMostOneSession
    rw [hses]
    exact hdb
  · intro t db1 h
    unfold atMostOneSession
    rw [(promote_ok_shape t db db1 h).2.1]
    exact hdb
  · intro t db1 h
    unfold atMostOneSession
    rw [(demote_ok_shape t db db1 h).2.1]
    exact hdb
  · intro v hsh o nw db1 h
    obtain ⟨s, u, _, _, _, _, _, hses, _⟩ := updatePassword_ok_shape v hsh o nw db db1 h
    unfold atMostOneSession
    rw [hses]
    exact hdb
  · intro u n db1 h
    unfold atMostOneSession
    rw [(updateUserProfile_ok_frame u n db db1 h).1]
    exact hdb
  · intro cid u n db1 h
    unfold atMostOneSession
    rw [(updateCustomerProfile_ok_frame cid u n db db1 h).1]
    exact hdb
  · intro inp n db1 h
    unfold atMostOneSession
    rw [(createCustomer_ok_frame inp n db db1 h).1]
    exact hdb
  · intro cid n db1 h
    unfold atMostOneSession
    rw [(deleteCustomer_ok_frame cid n db db1 h).1]
    exact hdb

theorem noUserUndelete_all : NoUserUndelete := by
  intro db db1 hop i hflag
  have hmap : ∃ g : UserRow → UserRow,
      (∀ r, r.is_deleted = true → (g r).is_deleted = true) ∧
      db1.users = db.users.map g := by
    rcases hop with ⟨t, h⟩ | ⟨t, h⟩ | ⟨t, h⟩ | ⟨v, hsh, o, nw, h⟩ | ⟨u, n, h⟩
    · refine ⟨_, ?_, (promote_ok_shape t db db1 h).1⟩
      intro r hr
      by_cases hp : (r.id == t && r.role == Role.OPERATOR) = true
      · rw [if_pos hp]; exact hr
      · rw [if_neg hp]; exact hr
    · refine ⟨_, ?_, (demote_ok_shape t db db1 h).1⟩
      intro r hr
      by_cases hp : (r.id == t && r.role == Role.MANAGER) = true
      · rw [if_pos hp]; exact hr
      · rw [if_neg hp]; exact hr
    · obtain ⟨p, _, _, husers, _, _⟩ := deleteUser_ok_shape t db db1 h
      refine ⟨_, ?_, husers⟩
      intro r hr
      by_cases hp : p r = true
      · rw [if_pos hp]
      · rw [if_neg hp]; exact hr
    · obtain ⟨s, u, _, _, _, _, husers, _, _⟩ := updatePassword_ok_shape v hsh o nw db db1 h
      refine ⟨_, ?_, husers⟩
      intro r hr
      by_cases hp : (r.id == s.userId && !r.is_deleted) = true
      · rw [if_pos hp]; exact hr
      · rw [if_neg hp]; exact hr
    · obtain ⟨_, _, g, hg, husers⟩ := updateUserProfile_ok_frame u n db db1 h
      refine ⟨g, ?_, husers⟩
      intro r hr
      rw [hg r]
      exact hr
  obtain ⟨g, hg, husers⟩ := hmap
  rw [husers, List.getElem?_map]
  cases hgi : db.users[i]? with
  | none => rw [hgi] at hflag; exact Option.noConfusion hflag
  | some r =>
    rw [hgi] at hflag
    have hflag2 : some r.is_deleted = some true := hflag
    injection hflag2 with hflag3
    show some (g r).is_deleted = some true
    exact congrArg some (hg r hflag3)

end Main

end ObstacleCourse

namespace ObstacleCourse

/-- C1 counterexample: with the seeded OWNER logged in as user 1,
promoteToManager(1) and demoteToOperator(1) do fail, but with the
zero-changes errors of the role-filtered UPDATE, not with the permission
error, because utils.ts has no self-protection check in these two
operations. -/
theorem C1_counterexample :
    Main.readSession Main.c1db = some { userId := 1, role := Role.OWNER } ∧
    Main.promoteUserToManager 1 Main.c1db = Except.error Err.cannotPromote ∧
    Main.demoteUserToOperator 1 Main.c1db = Except.error Err.cannotDemote ∧
    decide (Err.cannotPromote = Err.permissionDenied) = false ∧
    decide (Err.cannotDemote = Err.permissionDenied) = false :=
  ⟨rfl, rfl, rfl, rfl, rfl⟩

/-- C3 counterexample: in the part_004 revision a MANAGER session
soft-deletes the OWNER row, because deleteUser there carries no
target-role filter. -/
theorem C3_counterexample :
    V4.readSession V4.c3db =
      some { userId := 2, username := "mgr", role := Role.MANAGER } ∧
    V4.v4owner.role = Role.OWNER ∧ V4.v4owner.is_deleted = false ∧
    V4.deleteUser 1 V4.c3db = Except.ok V4.c3dbAfter ∧
    V4.c3dbAfter.users.find? (fun u => u.id == 1) =
      some { V4.v4owner with is_deleted := true } :=
  ⟨rfl, rfl, rfl, rfl, rfl⟩

/-- C4: the audit-trail append of part_004 updateCustomer is written with
the SQL function json_array_append, which SQLite does not provide, so a
non-empty update throws the engine error instead of appending to
modified_by and modified_at; the row and its audit arrays are never
written. -/
theorem C4_code_bug :
    V4.readSession V4.c4db =
      some { userId := 1, username := "root", role := Role.OWNER } ∧
    (V4.presentEntries { name := some "X" }).isEmpty = false ∧
    V4.updateCustomer 1 { name := some "X" } V4.c4db =
      Except.error (Err.sqlNoSuchFunction "json_array_append") :=
  ⟨rfl, rfl, rfl⟩

/-- C7 counterexample: the utils.ts users table enforces no uniqueness on
name or email, so after the OWNER soft-deletes user 2, a login with the
shared identifier dup@x.com still succeeds as user 3 instead of failing
NotFound. -/
theorem C7_counterexample :
    Main.deleteUser 2 Main.c7db = Except.ok Main.c7dbAfter ∧
    Main.loginUser Main.toyVerify "dup@x.com" "pwB" Main.c7dbAfter =
      Except.ok (some { userId := 3, role := Role.OPERATOR },
        { Main.c7dbAfter with sessions := [{ userId := 3, role := Role.OPERATOR }] }) ∧
    (Main.loginUser Main.toyVerify "dup@x.com" "pwB" Main.c7dbAfter).isOk = true :=
  ⟨rfl, rfl, rfl⟩

/-- C9 counterexample: a session row that survived a crash in the store is
erased by the app.whenReady startup path (initDb then eraseSession), so
after restart currentSession() is null rather than the surviving session. -/
theorem C9_counterexample :
    Main.readSession Main.c9db = some { userId := 1, role := Role.OWNER } ∧
    Main.readSession (Main.startupInit Main.c9db) = none ∧
    decide (Main.readSession (Main.startupInit Main.c9db) =
      some { userId := 1, role := Role.OWNER }) = false :=
  ⟨rfl, rfl, rfl⟩

/-- C9 amended: the session record does persist in the store across a
hard crash, but the next startup initialization erases every session
(and the clean shutdown path does too), so after any restart
currentSession() is null; a persisted session never survives into the
next run. -/
theorem C9_amended : ∀ db : Main.DB,
    Main.readSession (Main.startupInit db) = none ∧
    (Main.startupInit db).users = db.users ∧
    (Main.startupInit db).customers = db.customers ∧
    Main.readSession (Main.shutdownAllWindowsClosed db) = none :=
  fun _ => ⟨rfl, rfl, rfl, rfl⟩

/-- C10 counterexample: an empty-string gender bypasses the gender
ValidationError of normalizeUpdates, but the UPDATE then violates the
gender CHECK constraint of the users table, so update with gender equal
to the empty string fails at the store instead of succeeding. -/
theorem C10_counterexample :
    Main.normalizeUpdates { gender := some "" } =
      Except.ok ({ gender := some "" } : Main.ProfileUpdates) ∧
    Main.updateUserProfile { gender := some "" } Main.c10db =
      Except.error Err.sqlCheckConstraint ∧
    (Main.updateUserProfile { gender := some "" } Main.c10db).isOk = false :=
  ⟨rfl, rfl, rfl⟩

/-- C8: the session role is captured at login time and never re-derived
from the users table: promoteUserToManager and demoteUserToOperator leave
the sessions table unchanged, and readSession is a function of the
sessions table alone, so an existing session keeps the role stored at
login until the next login rewrites the table. -/
theorem C8_role_captured_at_login :
    (∀ (t : Nat) (db db1 : Main.DB), Main.promoteUserToManager t db = Except.ok db1 →
      db1.sessions = db.sessions) ∧
    (∀ (t : Nat) (db db1 : Main.DB), Main.demoteUserToOperator t db = Except.ok db1 →
      db1.sessions = db.sessions) ∧
    (∀ db db2 : Main.DB, db.sessions = db2.sessions →
      Main.readSession db = Main.readSession db2) :=
  ⟨fun t db db1 h => (Main.promote_ok_shape t db db1 h).2.1,
   fun t db db1 h => (Main.demote_ok_shape t db db1 h).2.1,
   fun db db2 hss => by unfold Main.readSession; rw [hss]⟩

/-- C8 witness: promoting user 2 turns its row into a MANAGER row but the
stored session still reads back with the role captured at login. -/
theorem C8_witness :
    Main.c8dbAfter.sessions = Main.c8db.sessions ∧
    Main.readSession Main.c8dbAfter = Main.readSession Main.c8db :=
  ⟨C8_role_captured_at_login.1 2 Main.c8db Main.c8dbAfter rfl,
   C8_role_captured_at_login.2.2 Main.c8dbAfter Main.c8db
     (C8_role_captured_at_login.1 2 Main.c8db Main.c8dbAfter rfl)⟩

/-- C6: under any authenticated session an update with an empty effective
field set returns 0, is not an error, and leaves the database (hence the
target row, its timestamps and the audit-array lengths) untouched, in
updateUserProfile and updateCustomerProfile of utils.ts and in
updateCustomer of part_004. -/
theorem C6_empty_update (db : Main.DB) (s : Main.Session) (cid : Nat)
    (db4 : V4.DB) (s4 : V4.Session) (hs : Main.readSession db = some s)
    (hcid : cid ≠ 0) (hs4 : V4.readSession db4 = some s4) :
    Main.updateUserProfile {} db = Except.ok (0, db) ∧
    Main.updateCustomerProfile cid {} db = Except.ok (0, db) ∧
    V4.updateCustomer cid {} db4 = Except.ok (0, db4) := by
  refine ⟨?_, ?_, ?_⟩
  · unfold Main.updateUserProfile
    rw [hs]
    rfl
  · unfold Main.updateCustomerProfile
    rw [hs]
    have hc : (cid == 0) = false := beq_false_of_ne hcid
    rw [hc]
    rfl
  · unfold V4.updateCustomer
    rw [hs4]
    rfl

/-- C6 witness: the empty update is a no-op on the concrete states. -/
theorem C6_witness :
    Main.updateUserProfile {} Main.c6db = Except.ok (0, Main.c6db) ∧
    Main.updateCustomerProfile 2 {} Main.c6db = Except.ok (0, Main.c6db) ∧
    V4.updateCustomer 2 {} V4.c4db = Except.ok (0, V4.c4db) :=
  C6_empty_update Main.c6db { userId := 1, role := Role.OWNER } 2 V4.c4db
    { userId := 1, username := "root", role := Role.OWNER } rfl (by decide) rfl

end ObstacleCourse

namespace ObstacleCourse

/-- C1 amended: for any authenticated session bound to userId U (whose own
row, if present, still bears the session role), deleteUser(U) fails with
the dedicated self-protection error, evaluated before the role branch, and
promoteToManager(U) and demoteToOperator(U) also fail with no row written —
but through the role guard or the zero-changes error of the role-filtered
UPDATE, not through a self-protection check, which utils.ts does not have
for these two operations; in the part_004 revision the self-check exists
but runs after the role-hierarchy check, so an OPERATOR session gets the
permission error and only OWNER/MANAGER sessions reach the self-check. -/
theorem C1_self_protection_amended (db : Main.DB) (s : Main.Session) (U : Nat)
    (hs : Main.readSession db = some s) (hu : s.userId = U)
    (hrole : ∀ u ∈ db.users, u.id = U → u.role = s.role) :
    Main.deleteUser U db = Except.error Err.cannotDeleteOwnAccount ∧
    (∃ e, Main.promoteUserToManager U db = Except.error e) ∧
    (∃ e, Main.demoteUserToOperator U db = Except.error e) ∧
    (∀ (db4 : V4.DB) (s4 : V4.Session), V4.readSession db4 = some s4 →
      (s4.role = Role.OPERATOR →
        V4.promoteUserToManager s4.userId db4 = Except.error Err.permissionDenied ∧
        V4.demoteUserToOperator s4.userId db4 = Except.error Err.permissionDenied) ∧
      (s4.role = Role.OWNER ∨ s4.role = Role.MANAGER →
        V4.promoteUserToManager s4.userId db4 = Except.error Err.cannotModifyOwnRole ∧
        V4.demoteUserToOperator s4.userId db4 = Except.error Err.cannotModifyOwnRole)) := by
  refine ⟨?_, ?_, ?_, ?_⟩
  · unfold Main.deleteUser
    simp only [hs]
    have hbe : (s.userId == U) = true := beq_iff_eq.mpr hu
    rw [hbe]
    rfl
  · by_cases hR : s.role = Role.OWNER
    · by_cases hU : U = 0
      · refine ⟨Err.userIdRequired, ?_⟩
        unfold Main.promoteUserToManager
        simp only [hs]
        rw [hR, hU]
        rfl
      · refine ⟨Err.cannotPromote, ?_⟩
        have hp : ∀ u ∈ db.users, ((fun u => u.id == U && u.role == Role.OPERATOR) u &&
            !genderOk (({ u with role := Role.MANAGER } : Main.UserRow)).gender) = false := by
          intro u hu1
          by_cases hid : u.id = U
          · have hrr := hrole u hu1 hid
            rw [hR] at hrr
            simp [hrr]
          · simp [beq_false_of_ne hid]
        have hany : db.users.any (fun u => (u.id == U && u.role == Role.OPERATOR) &&
            !genderOk (({ u with role := Role.MANAGER } : Main.UserRow)).gender) = false :=
          List.any_eq_false.mpr (by intro u hu1; rw [hp u hu1]; exact Bool.false_ne_true)
        have hcnt : db.users.countP (fun u => u.id == U && u.role == Role.OPERATOR) = 0 := by
          apply List.countP_eq_zero.mpr
          intro u hu1
          by_cases hid : u.id = U
          · have hrr := hrole u hu1 hid
            rw [hR] at hrr
            simp [hrr]
          · simp [beq_false_of_ne hid]
        have hq := Main.sqlUpdateUsers_ok_of (fun u => u.id == U && u.role == Role.OPERATOR)
          (fun u => { u with role := Role.MANAGER }) db hany
        unfold Main.promoteUserToManager
        simp only [hs]
        rw [hR]
        rw [beq_false_of_ne hU]
        simp only [hq, hcnt]
        rfl
    · refine ⟨Err.permissionDenied, ?_⟩
      unfold Main.promoteUserToManager
      simp only [hs]
      have : (s.role != Role.OWNER) = true := bne_iff_ne.mpr hR
      rw [this]
      rfl
  · by_cases hR : s.role = Role.OWNER
    · by_cases hU : U = 0
      · refine ⟨Err.userIdRequired, ?_⟩
        unfold Main.demoteUserToOperator
        simp only [hs]
        rw [hR, hU]
        rfl
      · refine ⟨Err.cannotDemote, ?_⟩
        have hany : db.users.any (fun u => (u.id == U && u.role == Role.MANAGER) &&
            !genderOk (({ u with role := Role.OPERATOR } : Main.UserRow)).gender) = false := by
          apply List.any_eq_false.mpr
          intro u hu1
          by_cases hid : u.id = U
          · have hrr := hrole u hu1 hid
            rw [hR] at hrr
            simp [hrr]
          · simp [beq_false_of_ne hid]
        have hcnt : db.users.countP (fun u => u.id == U && u.role == Role.MANAGER) = 0 := by
          apply List.countP_eq_zero.mpr
          intro u hu1
          by_cases hid : u.id = U
          · have hrr := hrole u hu1 hid
            rw [hR] at hrr
            simp [hrr]
          · simp [beq_false_of_ne hid]
        have hq := Main.sqlUpdateUsers_ok_of (fun u => u.id == U && u.role == Role.MANAGER)
          (fun u => { u with role := Role.OPERATOR }) db hany
        unfold Main.demoteUserToOperator
        simp only [hs]
        rw [hR]
        rw [beq_false_of_ne hU]
        simp only [hq, hcnt]
        rfl
    · refine ⟨Err.permissionDenied, ?_⟩
      unfold Main.demoteUserToOperator
      simp only [hs]
      have : (s.role != Role.OWNER) = true := bne_iff_ne.mpr hR
      rw [this]
      rfl
  · intro db4 s4 hs4
    constructor
    · intro h4
      constructor
      · unfold V4.promoteUserToManager
        simp only [hs4]
        rw [h4]
        rfl
      · unfold V4.demoteUserToOperator
        simp only [hs4]
        rw [h4]
        rfl
    · intro h4
      have hguard : (s4.role != Role.OWNER && s4.role != Role.MANAGER) = false := by
        cases h4 with
        | inl h => rw [h]; rfl
        | inr h => rw [h]; rfl
      have hself : (s4.userId == s4.userId) = true := beq_self_eq_true _
      constructor
      · unfold V4.promoteUserToManager
        simp only [hs4]
        rw [hguard, hself]
        rfl
      · unfold V4.demoteUserToOperator
        simp only [hs4]
        rw [hguard, hself]
        rfl

/-- C1 witness: the seeded OWNER session cannot delete itself, and its
self-promotion and self-demotion both fail. -/
theorem C1_witness :
    Main.deleteUser 1 Main.c1db = Except.error Err.cannotDeleteOwnAccount :=
  (C1_self_protection_amended Main.c1db { userId := 1, role := Role.OWNER } 1 rfl rfl
    (by decide)).1

end ObstacleCourse

namespace ObstacleCourse

/-- C2: when the identifier matches a non-deleted user row (the first one
the SELECT finds) and the password verifies against the stored hash of
that row, login returns the session built from the id and role of the row, the
sessions table afterwards holds exactly that one record whatever it held
before (the prior session is erased before the insert), and every
operation of the core keeps the table at no more than one record. -/
theorem C2_login_single_session (verify : String → String → Bool)
    (text password : String) (db : Main.DB) (u : Main.UserRow)
    (hfind : db.users.find?
      (fun r => (r.name == text || r.email == text) && !r.is_deleted) = some u)
    (hverify : verify password u.password_hash = true) :
    Main.loginUser verify text password db =
      Except.ok (some { userId := u.id, role := u.role },
        { db with sessions := [{ userId := u.id, role := u.role }] }) ∧
    Main.PreservesSessionBound := by
  constructor
  · unfold Main.loginUser
    simp only [hfind, hverify]
    rfl
  · exact Main.sessionBound_all

/-- C2 witness: logging in on the concrete store yields the MANAGER
session of the matched row and a singleton sessions table. -/
theorem C2_witness :
    Main.loginUser Main.toyVerify "alice" "pw" Main.c2db =
      Except.ok (some { userId := 1, role := Role.MANAGER },
        { Main.c2db with sessions := [{ userId := 1, role := Role.MANAGER }] }) :=
  (C2_login_single_session Main.toyVerify "alice" "pw" Main.c2db
    (Main.sampleUser 1 "alice" "alice@x.com" "stored-pw" Role.MANAGER) rfl rfl).1

end ObstacleCourse

namespace ObstacleCourse

/-- C3 amended: an OPERATOR session is always denied createUser,
deleteUser (with the self-protection error when it targets itself),
promoteToManager and demoteToOperator, with no row written; in utils.ts a
MANAGER session succeeds with deleteUser only against an OPERATOR target and
marks only OPERATOR rows, and an OWNER session may delete any existing
MANAGER or OPERATOR target other than itself.  (In the part_004 revision
the MANAGER restriction does not hold: its deleteUser has no target-role
filter, as the counterexample shows.) -/
theorem C3_role_hierarchy_amended :
    (∀ (db : Main.DB) (s : Main.Session), Main.readSession db = some s →
      s.role = Role.OPERATOR →
      (∀ hashOf inp, Main.createUser hashOf inp db = Except.error Err.permissionDenied) ∧
      (∀ t, Main.deleteUser t db = Except.error Err.permissionDenied ∨
            Main.deleteUser t db = Except.error Err.cannotDeleteOwnAccount) ∧
      (∀ t, Main.promoteUserToManager t db = Except.error Err.permissionDenied) ∧
      (∀ t, Main.demoteUserToOperator t db = Except.error Err.permissionDenied)) ∧
    (∀ (db : Main.DB) (s : Main.Session) (t : Nat) (db1 : Main.DB),
      Main.readSession db = some s → s.role = Role.MANAGER →
      Main.deleteUser t db = Except.ok db1 →
      (∃ u ∈ db.users, u.id = t ∧ u.role = Role.OPERATOR) ∧
      db1.users = db.users.map (fun u =>
        if u.id == t && u.role == Role.OPERATOR then { u with is_deleted := true } else u)) ∧
    (∀ (db : Main.DB) (s : Main.Session) (t : Nat),
      Main.readSession db = some s → s.role = Role.OWNER → s.userId ≠ t →
      Main.usersWF db →
      (∃ u ∈ db.users, u.id = t ∧ (u.role = Role.MANAGER ∨ u.role = Role.OPERATOR)) →
      ∃ db1, Main.deleteUser t db = Except.ok db1) := by
  refine ⟨?_, ?_, ?_⟩
  · intro db s hs hrol
    refine ⟨?_, ?_, ?_, ?_⟩
    · intro hashOf inp
      unfold Main.createUser
      simp only [hs]
      rw [hrol]
      rfl
    · intro t
      by_cases hid : s.userId = t
      · right
        unfold Main.deleteUser
        simp only [hs]
        rw [beq_iff_eq.mpr hid]
        rfl
      · left
        unfold Main.deleteUser
        simp only [hs]
        rw [beq_false_of_ne hid, hrol]
        rfl
    · intro t
      unfold Main.promoteUserToManager
      simp only [hs]
      rw [hrol]
      rfl
    · intro t
      unfold Main.demoteUserToOperator
      simp only [hs]
      rw [hrol]
      rfl
  · intro db s t db1 hs hrol hdel
    exact Main.deleteUser_manager_shape t s db db1 hs hrol hdel
  · intro db s t hs hrol hne hWF htarget
    obtain ⟨u, hu, hid, hrole2⟩ := htarget
    have hany : db.users.any (fun w =>
        (w.id == t && (w.role == Role.MANAGER || w.role == Role.OPERATOR)) &&
        !genderOk (({ w with is_deleted := true } : Main.UserRow)).gender) = false := by
      apply List.any_eq_false.mpr
      intro w hw
      simp [hWF w hw]
    have hq := Main.sqlUpdateUsers_ok_of
      (fun w => w.id == t && (w.role == Role.MANAGER || w.role == Role.OPERATOR))
      (fun w => { w with is_deleted := true }) db hany
    have hcnt : 0 < db.users.countP
        (fun w => w.id == t && (w.role == Role.MANAGER || w.role == Role.OPERATOR)) := by
      apply List.countP_pos_iff.mpr
      refine ⟨u, hu, ?_⟩
      cases hrole2 with
      | inl h => simp [hid, h]
      | inr h => simp [hid, h]
    have hchg : (db.users.countP
        (fun w => w.id == t && (w.role == Role.MANAGER || w.role == Role.OPERATOR)) == 0) = false :=
      beq_false_of_ne hcnt.ne'
    unfold Main.deleteUser
    simp only [hs]
    rw [beq_false_of_ne hne, hrol]
    simp only [hq, hchg]
    exact ⟨_, rfl⟩

/-- C3 witness: the OPERATOR session is denied user creation, and a
MANAGER deletion of the OPERATOR user 3 marks exactly that row. -/
theorem C3_witness :
    Main.createUser Main.toyHash Main.c3winput Main.c3opdb =
      Except.error Err.permissionDenied ∧
    Main.c3mdbAfter.users = Main.c3mdb.users.map (fun u =>
      if u.id == 3 && u.role == Role.OPERATOR then { u with is_deleted := true } else u) :=
  ⟨(C3_role_hierarchy_amended.1 Main.c3opdb { userId := 3, role := Role.OPERATOR }
      rfl rfl).1 Main.toyHash Main.c3winput,
   (C3_role_hierarchy_amended.2.1 Main.c3mdb { userId := 2, role := Role.MANAGER }
      3 Main.c3mdbAfter rfl rfl rfl).2⟩

end ObstacleCourse

namespace ObstacleCourse

/-- C5: a password change that succeeds verified the old password against
the stored hash of the session user and required the new password to satisfy
the strength policy, and it rewrote exactly the password_hash column of
the non-deleted row of the session user, leaving every other column, every
other row, the sessions table and the customers table (the only audit-
carrying tables in the corpus are customer tables) untouched. -/
theorem C5_change_password (verify : String → String → Bool)
    (hashOf : String → String) (oldP newP : String) (db db1 : Main.DB)
    (s : Main.Session) (u : Main.UserRow) (hs : Main.readSession db = some s)
    (hu : db.users.find? (fun r => r.id == s.userId && !r.is_deleted) = some u)
    (h : Main.updatePassword verify hashOf oldP newP db = Except.ok db1) :
    verify oldP u.password_hash = true ∧ isStrongPassword newP = true ∧
    db1.users = db.users.map (fun r =>
      if r.id == s.userId && !r.is_deleted then
        { r with password_hash := hashOf newP } else r) ∧
    db1.sessions = db.sessions ∧ db1.customers = db.customers := by
  obtain ⟨s2, u2, hs2, hu2, hv, hstr, husers, hses, hcus⟩ :=
    Main.updatePassword_ok_shape verify hashOf oldP newP db db1 h
  rw [hs] at hs2
  injection hs2 with hs2
  subst hs2
  rw [hu] at hu2
  injection hu2 with hu2
  subst hu2
  exact ⟨hv, hstr, husers, hses, hcus⟩

/-- C5 witness: on the concrete store the password change verified the old
password, required strength, and replaced only the stored hash. -/
theorem C5_witness :
    Main.toyVerify "Oldpass1!" (Main.sampleUser 1 "alice" "alice@x.com"
      "stored-Oldpass1!" Role.OPERATOR).password_hash = true ∧
    isStrongPassword "Newpass1!" = true ∧
    Main.c5dbAfter.users = Main.c5db.users.map (fun r =>
      if r.id == 1 && !r.is_deleted then
        { r with password_hash := Main.toyHash "Newpass1!" } else r) ∧
    Main.c5dbAfter.sessions = Main.c5db.sessions ∧
    Main.c5dbAfter.customers = Main.c5db.customers :=
  C5_change_password Main.toyVerify Main.toyHash "Oldpass1!" "Newpass1!"
    Main.c5db Main.c5dbAfter { userId := 1, role := Role.OPERATOR }
    (Main.sampleUser 1 "alice" "alice@x.com" "stored-Oldpass1!" Role.OPERATOR)
    rfl rfl rfl

end ObstacleCourse

namespace ObstacleCourse

/-- C7 amended: after deleteUser(t) succeeds (on a store whose user ids
are unique, as the PRIMARY KEY guarantees), every getAllUsers listing
excludes id t, and a login with the identifier of the deleted user fails
NotFound provided no other non-deleted row shares that name or email —
the utils.ts schema does not enforce identifier uniqueness, so with a
shared identifier the login resolves to the surviving row instead (see
the counterexample); and no users-table operation ever clears an
is_deleted flag. -/
theorem C7_soft_delete_amended (db db1 : Main.DB) (t : Nat)
    (hnodup : (db.users.map Main.UserRow.id).Nodup)
    (hdel : Main.deleteUser t db = Except.ok db1) :
    (∀ out, Main.getAllUsers db1 = Except.ok out → ∀ x ∈ out, x.id ≠ t) ∧
    (∀ (verify : String → String → Bool) (ident pw : String),
      (∀ u ∈ db.users, (u.name = ident ∨ u.email = ident) → u.id = t) →
      Main.loginUser verify ident pw db1 = Except.error Err.userNotFound) ∧
    Main.NoUserUndelete := by
  obtain ⟨p, hpid, ⟨w, hw, hpw⟩, husers, hses, hcus⟩ := Main.deleteUser_ok_shape t db db1 hdel
  have hkey : ∀ v ∈ db1.users, v.id = t → v.is_deleted = true := by
    intro v hv hvid
    rw [husers] at hv
    obtain ⟨u0, hu0, hu0v⟩ := List.mem_map.mp hv
    by_cases hp0 : p u0 = true
    · rw [if_pos hp0] at hu0v
      rw [← hu0v]
    · rw [if_neg hp0] at hu0v
      rw [← hu0v] at hvid
      have hwid : w.id = t := hpid w hpw
      have hvw : u0 = w := List.inj_on_of_nodup_map hnodup hu0 hw (by rw [hvid, hwid])
      rw [hvw] at hp0
      exact absurd hpw hp0
  refine ⟨?_, ?_, Main.noUserUndelete_all⟩
  · intro out hout x hx hxid
    unfold Main.getAllUsers at hout
    cases hr : Main.readSession db1 with
    | none => simp only [hr] at hout; exact Except.noConfusion hout
    | some s1 =>
      simp only [hr] at hout
      injection hout with hout
      subst hout
      obtain ⟨v, hvmem, hvx⟩ := List.mem_map.mp hx
      have hvfil := List.mem_mergeSort.mp hvmem
      obtain ⟨hvin, hvpred⟩ := List.mem_filter.mp hvfil
      have hvid : v.id = t := by rw [← hvx] at hxid; exact hxid
      have hvdel := hkey v hvin hvid
      have hand := (Bool.and_eq_true _ _).mp hvpred
      rw [hvdel] at hand
      exact absurd hand.1 (by simp)
  · intro verify ident pw hid1
    have hnone : db1.users.find?
        (fun v => (v.name == ident || v.email == ident) && !v.is_deleted) = none := by
      apply List.find?_eq_none.mpr
      intro v hv hpred
      have hand := (Bool.and_eq_true _ _).mp hpred
      rw [husers] at hv
      obtain ⟨u0, hu0, hu0v⟩ := List.mem_map.mp hv
      by_cases hp0 : p u0 = true
      · rw [if_pos hp0] at hu0v
        rw [← hu0v] at hand
        exact absurd hand.2 (by simp)
      · rw [if_neg hp0] at hu0v
        rw [← hu0v] at hand
        have h1 := hand.1
        simp only [Bool.or_eq_true] at h1
        have hmatch : u0.name = ident ∨ u0.email = ident := by
          cases h1 with
          | inl h => exact Or.inl (eq_of_beq h)
          | inr h => exact Or.inr (eq_of_beq h)
        have hvid : u0.id = t := hid1 u0 hu0 hmatch
        have hwid : w.id = t := hpid w hpw
        have hvw : u0 = w := List.inj_on_of_nodup_map hnodup hu0 hw (by rw [hvid, hwid])
        rw [hvw] at hp0
        exact absurd hpw hp0
    unfold Main.loginUser
    simp only [hnone]

/-- C7 witness: after the OWNER deletes the uniquely-identified user 2,
its login fails NotFound. -/
theorem C7_witness :
    Main.loginUser Main.toyVerify "alice@x.com" "pwA" Main.c7wdbAfter =
      Except.error Err.userNotFound :=
  (C7_soft_delete_amended Main.c7wdb Main.c7wdbAfter 2 (by decide) rfl).2.1
    Main.toyVerify "alice@x.com" "pwA" (by decide)

end ObstacleCourse

namespace ObstacleCourse

/-- C10 amended: a field supplied as the empty string bypasses
normalization and validation (the truthiness guard skips it) yet is kept
by buildSetClause, so under any authenticated session whose own row
exists and is not deleted, update with phone, email or emergency_contact
equal to the empty string succeeds and stores the empty value with no
ValidationError; gender supplied as the empty string equally bypasses the
gender ValidationError and reaches the SET clause, but the CHECK
(gender IN ('M','F','O')) constraint of the users table rejects the write with a storage-level
constraint error, so the empty gender is not stored. -/
theorem C10_empty_string_amended (db : Main.DB) (s : Main.Session)
    (hs : Main.readSession db = some s) (hWF : Main.usersWF db)
    (hrow : ∃ u ∈ db.users, u.id = s.userId ∧ u.is_deleted = false) :
    (Main.normalizeUpdates { phone := some "" } =
       Except.ok ({ phone := some "" } : Main.ProfileUpdates) ∧
     Main.updateUserProfile { phone := some "" } db =
       Except.ok (db.users.countP (fun r => r.id == s.userId && !r.is_deleted),
         { db with users := db.users.map fun r =>
             if r.id == s.userId && !r.is_deleted then { r with phone := "" } else r }) ∧
     0 < db.users.countP (fun r => r.id == s.userId && !r.is_deleted)) ∧
    (Main.normalizeUpdates { email := some "" } =
       Except.ok ({ email := some "" } : Main.ProfileUpdates) ∧
     Main.updateUserProfile { email := some "" } db =
       Except.ok (db.users.countP (fun r => r.id == s.userId && !r.is_deleted),
         { db with users := db.users.map fun r =>
             if r.id == s.userId && !r.is_deleted then { r with email := "" } else r })) ∧
    (Main.normalizeUpdates { emergency_contact := some "" } =
       Except.ok ({ emergency_contact := some "" } : Main.ProfileUpdates) ∧
     Main.updateUserProfile { emergency_contact := some "" } db =
       Except.ok (db.users.countP (fun r => r.id == s.userId && !r.is_deleted),
         { db with users := db.users.map fun r =>
             if r.id == s.userId && !r.is_deleted then
               { r with emergency_contact := "" } else r })) ∧
    (Main.normalizeUpdates { gender := some "" } =
       Except.ok ({ gender := some "" } : Main.ProfileUpdates) ∧
     Main.updateUserProfile { gender := some "" } db =
       Except.error Err.sqlCheckConstraint) := by
  have hpos : 0 < db.users.countP (fun r => r.id == s.userId && !r.is_deleted) := by
    apply List.countP_pos_iff.mpr
    obtain ⟨u, hu, huid, hudel⟩ := hrow
    exact ⟨u, hu, by simp [huid, hudel]⟩
  refine ⟨⟨rfl, ?_, hpos⟩, ⟨rfl, ?_⟩, ⟨rfl, ?_⟩, ⟨rfl, ?_⟩⟩
  · have hany : db.users.any (fun r => (r.id == s.userId && !r.is_deleted) &&
        !genderOk ((Main.applyProfileUpdates { phone := some "" } r)).gender) = false := by
      apply List.any_eq_false.mpr
      intro r hr
      simp [Main.applyProfileUpdates, hWF r hr]
    have hq := Main.sqlUpdateUsers_ok_of (fun r => r.id == s.userId && !r.is_deleted)
      (Main.applyProfileUpdates { phone := some "" }) db hany
    unfold Main.updateUserProfile
    simp only [hs]
    show Main.sqlUpdateUsers (fun r => r.id == s.userId && !r.is_deleted)
      (Main.applyProfileUpdates { phone := some "" }) db = _
    exact hq
  · have hany : db.users.any (fun r => (r.id == s.userId && !r.is_deleted) &&
        !genderOk ((Main.applyProfileUpdates { email := some "" } r)).gender) = false := by
      apply List.any_eq_false.mpr
      intro r hr
      simp [Main.applyProfileUpdates, hWF r hr]
    have hq := Main.sqlUpdateUsers_ok_of (fun r => r.id == s.userId && !r.is_deleted)
      (Main.applyProfileUpdates { email := some "" }) db hany
    unfold Main.updateUserProfile
    simp only [hs]
    show Main.sqlUpdateUsers (fun r => r.id == s.userId && !r.is_deleted)
      (Main.applyProfileUpdates { email := some "" }) db = _
    exact hq
  · have hany : db.users.any (fun r => (r.id == s.userId && !r.is_deleted) &&
        !genderOk ((Main.applyProfileUpdates { emergency_contact := some "" } r)).gender) = false := by
      apply List.any_eq_false.mpr
      intro r hr
      simp [Main.applyProfileUpdates, hWF r hr]
    have hq := Main.sqlUpdateUsers_ok_of (fun r => r.id == s.userId && !r.is_deleted)
      (Main.applyProfileUpdates { emergency_contact := some "" }) db hany
    unfold Main.updateUserProfile
    simp only [hs]
    show Main.sqlUpdateUsers (fun r => r.id == s.userId && !r.is_deleted)
      (Main.applyProfileUpdates { emergency_contact := some "" }) db = _
    exact hq
  · have hany : db.users.any (fun r => (r.id == s.userId && !r.is_deleted) &&
        !genderOk ((Main.applyProfileUpdates { gender := some "" } r)).gender) = true := by
      apply List.any_eq_true.mpr
      obtain ⟨u, hu, huid, hudel⟩ := hrow
      refine ⟨u, hu, ?_⟩
      simp [Main.applyProfileUpdates, huid, hudel, genderOk]
    unfold Main.updateUserProfile
    simp only [hs]
    show Main.sqlUpdateUsers (fun r => r.id == s.userId && !r.is_deleted)
      (Main.applyProfileUpdates { gender := some "" }) db = _
    unfold Main.sqlUpdateUsers
    rw [hany]
    rfl

/-- C10 witness: on the concrete store the empty-string phone is stored
with one changed row, and the empty-string gender update fails on the
CHECK constraint. -/
theorem C10_witness :
    Main.updateUserProfile { phone := some "" } Main.c10db =
      Except.ok (1, { Main.c10db with users :=
        [{ Main.sampleUser 1 "root" "root@x.com" "stored-pw" Role.OWNER with
           phone := "" }] }) ∧
    Main.updateUserProfile { gender := some "" } Main.c10db =
      Except.error Err.sqlCheckConstraint :=
  ⟨(C10_empty_string_amended Main.c10db { userId := 1, role := Role.OWNER }
      rfl (by unfold Main.usersWF; decide)
      ⟨Main.sampleUser 1 "root" "root@x.com" "stored-pw" Role.OWNER,
        by decide, by decide, by decide⟩).1.2.1,
   (C10_empty_string_amended Main.c10db { userId := 1, role := Role.OWNER }
      rfl (by unfold Main.usersWF; decide)
      ⟨Main.sampleUser 1 "root" "root@x.com" "stored-pw" Role.OWNER,
        by decide, by decide, by decide⟩).2.2.2.2⟩

end ObstacleCourse
